import Mathlib

/-!
Verification of the marina repository's Remote Printer Control abstraction
(Moonraker adapter) and the MaterialUsage persistence model, as a shallow
embedding of `src/src/models/Materials/MaterialUsage.ts`.

The embedding models JavaScript string primitives used by the source
(`String.prototype.replace` with a string pattern, which replaces only the
first occurrence; `endsWith('/')`; `slice(0, -1)`), the adapter state, the
HTTP requests the adapter issues, and the promise chain of `checkForUpdates`
as an explicit outcome type.
-/

/-- JavaScript `hay.replace(pat, rep)` on character lists: replaces the
first occurrence of `pat` only. -/
def jsReplaceChars (hay pat rep : List Char) : List Char :=
  match hay with
  | [] => []
  | c :: rest =>
    if pat.isPrefixOf (c :: rest) then rep ++ (c :: rest).drop pat.length
    else c :: jsReplaceChars rest pat rep

/-- JavaScript `s.replace(pat, rep)` (string pattern: first occurrence only). -/
def jsReplace (s pat rep : String) : String :=
  ⟨jsReplaceChars s.data pat.data rep.data⟩

/-- JavaScript `s.endsWith(c)` for a single-character suffix. -/
def jsEndsWithChar (s : String) (c : Char) : Bool :=
  s.data.getLast? = some c

/-- JavaScript `s.slice(0, -1)`: drop the last character. -/
def jsSliceDropLast (s : String) : String :=
  ⟨s.data.dropLast⟩

/-- Websocket handle (`WS` in the source); records the URL it was opened on. -/
structure WS where
  url : String
deriving Repr, DecidableEq

/-- Adapter state: the fields of `MoonrakerRemotePrinter`. -/
structure MoonrakerRemotePrinter where
  connectionType : String
  connectionAddress : String
  connectionAPIKey : Option String
  socket : Option WS
deriving Repr, DecidableEq

/-- Constructor of `MoonrakerRemotePrinter`: sets the address and the optional
API key; `connectionType` is `'moonraker'` and `socket` starts `null`. -/
def MoonrakerRemotePrinter.make (address : String) (apiKey : Option String) :
    MoonrakerRemotePrinter :=
  { connectionType := "moonraker"
    connectionAddress := address
    connectionAPIKey := apiKey
    socket := none }

/-- Method `buildConnectionURL(websocket = false)`: optionally rewrite `http` to `ws`
(first occurrence, as JS `replace` with a string pattern does), then strip one
trailing slash if present. -/
def buildConnectionURL (p : MoonrakerRemotePrinter) (websocket : Bool) : String :=
  let url := p.connectionAddress
  let url := if websocket then jsReplace url "http" "ws" else url
  if jsEndsWithChar url '/' then jsSliceDropLast url else url

/-- An HTTP request as issued by the adapter: method, full URL, and whether the
call chain attaches any rejection handler (`.catch` or `try/catch`) to the
returned promise. -/
structure IssuedRequest where
  method : String
  url : String
  rejectionHandled : Bool
deriving Repr, DecidableEq

/-- Observable effect on websocket handles. -/
inductive SocketEffect where
  | opened (url : String)
  | wsClosed (url : String)
deriving Repr, DecidableEq

/-- Method `openSocketConnection()`: build the websocket URL, append `/websocket`,
open a new socket, store it in `this.socket`, return it. The effect list
records exactly the socket operations performed (the source constructs one
`WS` and calls no `close`). -/
def openSocketConnection (p : MoonrakerRemotePrinter) :
    MoonrakerRemotePrinter × WS × List SocketEffect :=
  let socket : WS := ⟨buildConnectionURL p true ++ "/websocket"⟩
  ({ p with socket := some socket }, socket, [SocketEffect.opened socket.url])

/-- Outcome of a single `fetch` call whose body is never read: either the
transport fails (promise rejection) or a response arrives with an `ok` flag
(`true` exactly for 2xx statuses). -/
inductive FetchOutcome where
  | transportFailure
  | response (ok : Bool)
deriving Repr, DecidableEq

/-- Request issued by `testConnection`: a plain `fetch(url)` (GET) on the REST
base URL, inside `try/catch`. -/
def testConnectionRequest (p : MoonrakerRemotePrinter) : IssuedRequest :=
  { method := "GET", url := buildConnectionURL p false, rejectionHandled := true }

/-- Method `testConnection()`: `true` when the awaited response has `ok` set; the
`catch` arm and the fall-through both return `false`. The adapter state is
returned unchanged (the method assigns no field). -/
def testConnection (p : MoonrakerRemotePrinter) (o : FetchOutcome) :
    MoonrakerRemotePrinter × Bool :=
  match o with
  | FetchOutcome.transportFailure => (p, false)
  | FetchOutcome.response ok => if ok then (p, true) else (p, false)

/-- Method `emergencyStop()`: fire-and-forget POST; the returned promise is discarded
with no handler attached. -/
def emergencyStop (p : MoonrakerRemotePrinter) :
    MoonrakerRemotePrinter × IssuedRequest :=
  (p, { method := "POST"
        url := buildConnectionURL p false ++ "/printer/emergency_stop"
        rejectionHandled := false })

/-- Method `restart()`: fire-and-forget POST; the returned promise is discarded with
no handler attached. -/
def restart (p : MoonrakerRemotePrinter) :
    MoonrakerRemotePrinter × IssuedRequest :=
  (p, { method := "POST"
        url := buildConnectionURL p false ++ "/printer/restart"
        rejectionHandled := false })

/-- Method `firmwareRestart()`: fire-and-forget POST; the returned promise is
discarded with no handler attached. -/
def firmwareRestart (p : MoonrakerRemotePrinter) :
    MoonrakerRemotePrinter × IssuedRequest :=
  (p, { method := "POST"
        url := buildConnectionURL p false ++ "/printer/firmware_restart"
        rejectionHandled := false })

/-- JavaScript template-literal stringification of
`refresh?: boolean | undefined`. -/
def jsShowOptBool (refresh : Option Bool) : String :=
  match refresh with
  | none => "undefined"
  | some true => "true"
  | some false => "false"

/-- Request issued by `checkForUpdates`: the source's template literal is
`${base}/machine/update / status ? refresh = ${refresh}` — the spaces and the
`update / status` segment are reproduced verbatim. A `.catch` is attached. -/
def checkForUpdatesRequest (p : MoonrakerRemotePrinter) (refresh : Option Bool) :
    IssuedRequest :=
  { method := "POST"
    url := buildConnectionURL p false ++ "/machine/update / status ? refresh = "
             ++ jsShowOptBool refresh
    rejectionHandled := true }

/-- Modelled from the spec: the shape discriminators `isUpdateRepositoryStatus`
and `isSystemUpdateStatus` and the raw value type live in `RemoteAPI.ts`, which
is not in the analyzed source. Per the spec, a raw `version_info` value is one
of three shapes: a repository status (`version`, `remote_version`, a
`commits_behind` sequence), a system-package status (`package_list`), or a
bare boolean. -/
inductive RawModuleStatus where
  | repo (version : String) (remote_version : String) (commits_behind : List Nat)
  | system (package_list : List String)
  | boolean (b : Bool)
deriving Repr, DecidableEq

/-- Modelled from the spec: `isUpdateRepositoryStatus` holds exactly for the
repository shape (has `remote_version` and a `commits_behind` sequence). -/
def isUpdateRepositoryStatus : RawModuleStatus → Bool
  | RawModuleStatus.repo _ _ _ => true
  | _ => false

/-- Modelled from the spec: `isSystemUpdateStatus` holds exactly for the
system-package shape (has `package_list`). -/
def isSystemUpdateStatus : RawModuleStatus → Bool
  | RawModuleStatus.system _ => true
  | _ => false

/-- One entry of `UpdateCheckResult`, as constructed by `checkForUpdates`
(field names follow the object literals in the source). -/
inductive UpdateModuleEntry where
  | repository («local» : String) (remote : String) (commits_behind : Nat)
  | systemPackages (packages : List String)
deriving Repr, DecidableEq

/-- The `version_info` mapping of the parsed envelope, in key enumeration
order; a `none` value models a key present with value `undefined`. -/
def VersionInfo : Type := List (String × Option RawModuleStatus)

/-- The body of the `.map` callback in `checkForUpdates`: `undefined` values
give `null`, repository shapes are projected to
`{local, remote, commits_behind: length}`, system shapes to `{packages}`, the
boolean branch gives `null`. -/
def classifyModule (v : Option RawModuleStatus) : Option UpdateModuleEntry :=
  match v with
  | none => none
  | some moduleVersion =>
    if isUpdateRepositoryStatus moduleVersion then
      match moduleVersion with
      | RawModuleStatus.repo version remote_version commits_behind =>
        some (UpdateModuleEntry.repository version remote_version commits_behind.length)
      | _ => none
    else if isSystemUpdateStatus moduleVersion then
      match moduleVersion with
      | RawModuleStatus.system package_list =>
        some (UpdateModuleEntry.systemPackages package_list)
      | _ => none
    else
      none

/-- The `.map` over `Object.keys(versionInfo)` followed by the
`.filter(module => module !== null)` of `checkForUpdates`. -/
def normalizeVersionInfo (versionInfo : List (String × Option RawModuleStatus)) :
    List UpdateModuleEntry :=
  ((versionInfo.map fun kv => classifyModule kv.2).filterMap id)

/-- Envelope `APIResult<T> = { result: T }`. -/
structure APIResult (T : Type) where
  result : T
deriving Repr

/-- Payload `MachineUpdateStatusAPIResponse = { version_info: ... }`. -/
structure MachineUpdateStatusAPIResponse where
  version_info : List (String × Option RawModuleStatus)
deriving Repr

/-- Outcome of the `fetch` in `checkForUpdates`: transport rejection, or a
response with an `ok` flag and a body whose JSON parse either fails (`none`)
or yields the typed envelope. -/
inductive UpdateFetchOutcome where
  | transportFailure
  | response (ok : Bool) (body : Option (APIResult MachineUpdateStatusAPIResponse))
deriving Repr

/-- First `.then` of `checkForUpdates`: `null` for a non-ok response, else
`response.json()` (whose parse failure is a rejection, modelled as `error`). -/
def updateStatusStage1 (o : UpdateFetchOutcome) :
    Except Unit (Option (APIResult MachineUpdateStatusAPIResponse)) :=
  match o with
  | UpdateFetchOutcome.transportFailure => Except.error ()
  | UpdateFetchOutcome.response ok body =>
    if ok then
      match body with
      | none => Except.error ()
      | some env => Except.ok (some env)
    else Except.ok none

/-- Second `.then` of `checkForUpdates`: reads `updateStatus.result.version_info`
(a TypeError — hence a rejection — when the previous stage produced `null`),
then maps and filters the modules. -/
def updateStatusStage2 (x : Option (APIResult MachineUpdateStatusAPIResponse)) :
    Except Unit (List UpdateModuleEntry) :=
  match x with
  | none => Except.error ()
  | some updateStatus =>
    Except.ok (normalizeVersionInfo updateStatus.result.version_info)

/-- Method `checkForUpdates(refresh?)`: the promise chain
`fetch(...).then(stage1).then(stage2).catch(() => null)`; the adapter state is
returned unchanged (the method assigns no field). -/
def checkForUpdates (p : MoonrakerRemotePrinter) (refresh : Option Bool)
    (o : UpdateFetchOutcome) :
    MoonrakerRemotePrinter × IssuedRequest × Option (List UpdateModuleEntry) :=
  let req := checkForUpdatesRequest p refresh
  let outcome :=
    match (updateStatusStage1 o).bind updateStatusStage2 with
    | Except.error _ => none
    | Except.ok moduleInfo => some moduleInfo
  (p, req, outcome)

/-- Modelled from the spec: the `Material` model lives in `Material.ts`, which
is not in the analyzed source; per the spec it is a row keyed by
`materialId`. -/
structure Material where
  materialId : Nat
deriving Repr, DecidableEq

/-- One `material_usage` row, with the attributes declared by
`MaterialUsage.initialize` (`weightUsed` is a FLOAT column; its value plays no
role in the referential constraint). -/
structure MaterialUsage where
  materialUsageId : Nat
  materialId : Nat
  weightUsed : Float
deriving Repr

/-- The options the source passes to `MaterialUsage.belongsTo(Material, ...)`
in `MaterialUsage.associate()`. -/
structure BelongsToOptions where
  foreignKey : String
  targetKey : String
  onDelete : String
  onUpdate : String
  asName : String
deriving Repr, DecidableEq

/-- The association declared by `MaterialUsage.associate()`. -/
def materialUsageAssociation : BelongsToOptions :=
  { foreignKey := "materialId"
    targetKey := "materialId"
    onDelete := "RESTRICT"
    onUpdate := "CASCADE"
    asName := "material" }

/-- Database state for the two tables. -/
structure DBState where
  materials : List Material
  usages : List MaterialUsage
deriving Repr

/-- Modelled from the spec: the foreign-key engine (Sequelize / the SQL
database) that enforces the declared `onDelete` option is not in the analyzed
source. With `onDelete = 'RESTRICT'`, deleting a material row is rejected and
the state returned unchanged while any usage row references it; otherwise the
row is removed. The returned boolean reports whether the delete went
through. -/
def deleteMaterial (opts : BelongsToOptions) (st : DBState) (id : Nat) :
    Bool × DBState :=
  if opts.onDelete = "RESTRICT" && st.usages.any (fun u => u.materialId == id) then
    (false, st)
  else
    (true, { st with materials := st.materials.filter fun m => m.materialId != id })

/-- Modelled from the spec: the foreign-key engine that enforces the declared
`onUpdate` option is not in the analyzed source. With `onUpdate = 'CASCADE'`,
changing a material's identifier rewrites the `materialId` foreign key of every
referencing usage row; with any other option the usage rows are left as they
were. -/
def updateMaterialId (opts : BelongsToOptions) (st : DBState)
    (oldId newId : Nat) : DBState :=
  { materials := st.materials.map fun m =>
      if m.materialId == oldId then { m with materialId := newId } else m
    usages :=
      if opts.onUpdate = "CASCADE" then
        st.usages.map fun u =>
          if u.materialId == oldId then { u with materialId := newId } else u
      else st.usages }

/-- The raw `version_info` mapping of the spec's klipper/moonraker/system
scenario. -/
def demoVersionInfo : List (String × Option RawModuleStatus) :=
  [("klipper", some (RawModuleStatus.repo "v1" "v2" [1, 2, 3])),
   ("moonraker", some (RawModuleStatus.system ["a", "b"])),
   ("system", some (RawModuleStatus.boolean true))]

/-- The scenario's parsed response envelope. -/
def demoEnv : APIResult MachineUpdateStatusAPIResponse := ⟨⟨demoVersionInfo⟩⟩

/-! Helper lemmas about the JavaScript string primitives. -/

theorem jsReplaceChars_prefix (c : Char) (ps rest rep : List Char) :
    jsReplaceChars ((c :: ps) ++ rest) (c :: ps) rep = rep ++ rest := by
  have hpre : (c :: ps).isPrefixOf (c :: (ps ++ rest)) = true := by
    rw [← List.cons_append]
    exact List.isPrefixOf_iff_prefix.mpr (List.prefix_append _ _)
  show jsReplaceChars (c :: (ps ++ rest)) (c :: ps) rep = rep ++ rest
  unfold jsReplaceChars
  rw [hpre]
  simp only [if_true]
  show rep ++ (List.drop (c :: ps).length (c :: (ps ++ rest))) = rep ++ rest
  rw [← List.cons_append, List.drop_left]

theorem String.data_ne_nil {x : String} (h : x ≠ "") : x.data ≠ [] := by
  intro hd
  exact h (String.ext hd)

theorem jsReplace_prefix (pre rest rep : String) (h : pre.data ≠ []) :
    jsReplace (pre ++ rest) pre rep = rep ++ rest := by
  obtain ⟨c, ps, hcp⟩ : ∃ c ps, pre.data = c :: ps := by
    cases hd : pre.data with
    | nil => exact absurd hd h
    | cons c ps => exact ⟨c, ps, rfl⟩
  show String.mk (jsReplaceChars (pre ++ rest).data pre.data rep.data) = rep ++ rest
  rw [String.data_append, hcp, jsReplaceChars_prefix]
  rfl

theorem jsEndsWithChar_append (a x : String) (hx : x.data ≠ []) (c : Char) :
    jsEndsWithChar (a ++ x) c = jsEndsWithChar x c := by
  unfold jsEndsWithChar
  rw [String.data_append, List.getLast?_append_of_ne_nil _ hx]

theorem jsEndsWithChar_concat_slash (A : String) :
    jsEndsWithChar (A ++ "/") '/' = true := by
  unfold jsEndsWithChar
  rw [String.data_append]
  show decide ((A.data ++ ['/']).getLast? = some '/') = true
  rw [List.getLast?_concat]
  exact decide_eq_true rfl

theorem jsSliceDropLast_concat (A : String) :
    jsSliceDropLast (A ++ "/") = A := by
  show String.mk ((A ++ "/").data.dropLast) = A
  rw [String.data_append]
  show String.mk ((A.data ++ ['/']).dropLast) = A
  rw [List.dropLast_concat]

theorem buildConnectionURL_false_eq (p : MoonrakerRemotePrinter) :
    buildConnectionURL p false =
      if jsEndsWithChar p.connectionAddress '/' then
        jsSliceDropLast p.connectionAddress
      else p.connectionAddress := rfl

theorem buildConnectionURL_true_eq (p : MoonrakerRemotePrinter) :
    buildConnectionURL p true =
      if jsEndsWithChar (jsReplace p.connectionAddress "http" "ws") '/' then
        jsSliceDropLast (jsReplace p.connectionAddress "http" "ws")
      else jsReplace p.connectionAddress "http" "ws" := rfl

/-- C2: the Connection URL Builder leaves a slash-free address untouched,
strips exactly one trailing slash, and with the WebSocket flag set rewrites
only the leading scheme token `http` to `ws` (so `http://x` becomes `ws://x`
and `https://x` becomes `wss://x`), the replacement consuming the leading
occurrence and leaving the remainder of the address verbatim. -/
theorem buildConnectionURL_spec :
    (∀ p : MoonrakerRemotePrinter, jsEndsWithChar p.connectionAddress '/' = false →
        buildConnectionURL p false = p.connectionAddress)
    ∧ (∀ (p : MoonrakerRemotePrinter) (A : String),
        p.connectionAddress = A ++ "/" →
        buildConnectionURL p false = A)
    ∧ (∀ (p : MoonrakerRemotePrinter) (x : String),
        x ≠ "" → jsEndsWithChar x '/' = false →
        p.connectionAddress = "http://" ++ x →
        buildConnectionURL p true = "ws://" ++ x)
    ∧ (∀ (p : MoonrakerRemotePrinter) (x : String),
        x ≠ "" → jsEndsWithChar x '/' = false →
        p.connectionAddress = "https://" ++ x →
        buildConnectionURL p true = "wss://" ++ x)
    ∧ (∀ rest : List Char,
        jsReplaceChars ("http".data ++ rest) "http".data "ws".data
          = "ws".data ++ rest) := by
  refine ⟨?_, ?_, ?_, ?_, ?_⟩
  · intro p h
    rw [buildConnectionURL_false_eq, h]
    simp
  · intro p A hA
    rw [buildConnectionURL_false_eq, hA, jsEndsWithChar_concat_slash]
    simp only [if_true]
    exact jsSliceDropLast_concat A
  · intro p x hx hslash hA
    have h1 : ("http://" ++ x) = "http" ++ ("://" ++ x) := by
      rw [← String.append_assoc]
      exact congrArg (fun s => s ++ x) (by decide)
    have h2 : jsReplace p.connectionAddress "http" "ws" = "ws://" ++ x := by
      rw [hA, h1, jsReplace_prefix _ _ _ (by decide), ← String.append_assoc]
      exact congrArg (fun s => s ++ x) (by decide)
    have h3 : jsEndsWithChar ("ws://" ++ x) '/' = false := by
      rw [jsEndsWithChar_append "ws://" x (String.data_ne_nil hx) '/']
      exact hslash
    rw [buildConnectionURL_true_eq, h2, h3]
    simp
  · intro p x hx hslash hA
    have h1 : ("https://" ++ x) = "http" ++ ("s://" ++ x) := by
      rw [← String.append_assoc]
      exact congrArg (fun s => s ++ x) (by decide)
    have h2 : jsReplace p.connectionAddress "http" "ws" = "wss://" ++ x := by
      rw [hA, h1, jsReplace_prefix _ _ _ (by decide), ← String.append_assoc]
      exact congrArg (fun s => s ++ x) (by decide)
    have h3 : jsEndsWithChar ("wss://" ++ x) '/' = false := by
      rw [jsEndsWithChar_append "wss://" x (String.data_ne_nil hx) '/']
      exact hslash
    rw [buildConnectionURL_true_eq, h2, h3]
    simp
  · intro rest
    exact jsReplaceChars_prefix 'h' ['t', 't', 'p'] rest "ws".data

/-- C2 witness: the URL builder evaluated on concrete addresses. -/
theorem buildConnectionURL_spec_witness :
    buildConnectionURL (MoonrakerRemotePrinter.make "http://a.b" none) false
        = "http://a.b"
    ∧ buildConnectionURL (MoonrakerRemotePrinter.make "http://a.b/" none) false
        = "http://a.b"
    ∧ buildConnectionURL (MoonrakerRemotePrinter.make "http://a.b" none) true
        = "ws://a.b"
    ∧ buildConnectionURL (MoonrakerRemotePrinter.make "https://a.b" none) true
        = "wss://a.b" :=
  ⟨buildConnectionURL_spec.1 _ (by decide),
   buildConnectionURL_spec.2.1 _ "http://a.b" (by decide),
   buildConnectionURL_spec.2.2.1 _ "a.b" (by decide) (by decide) (by decide),
   buildConnectionURL_spec.2.2.2.1 _ "a.b" (by decide) (by decide) (by decide)⟩

/-- C1: evaluation of the request `checkForUpdates` builds. The source's
template literal is `/machine/update / status ? refresh = ${refresh}`, so the
issued URL contains spaces and an `update / status` segment rather than the
documented `/machine/update_status?refresh={refresh}`; the method is POST as
documented. -/
theorem checkForUpdatesRequest_url_bug :
    (checkForUpdatesRequest (MoonrakerRemotePrinter.make "http://x" none)
        (some false)).method = "POST"
    ∧ (checkForUpdatesRequest (MoonrakerRemotePrinter.make "http://x" none)
        (some false)).url = "http://x/machine/update / status ? refresh = false"
    ∧ ((checkForUpdatesRequest (MoonrakerRemotePrinter.make "http://x" none)
        (some false)).url == "http://x/machine/update_status?refresh=false")
        = false := by
  refine ⟨rfl, by decide, by decide⟩

/-- C3: whenever `checkForUpdates` returns a non-null result, the fetch
succeeded with a parsed envelope, the result is the normalization of its
`version_info` mapping, its length is at most the number of keys of that
mapping, and every entry arises from a key whose raw value was
repository-shaped or system-package-shaped — never from an `undefined` or
boolean-shaped value. -/
theorem checkForUpdates_result_invariant :
    ∀ (p : MoonrakerRemotePrinter) (refresh : Option Bool)
      (o : UpdateFetchOutcome) (entries : List UpdateModuleEntry),
      (checkForUpdates p refresh o).2.2 = some entries →
      ∃ env : APIResult MachineUpdateStatusAPIResponse,
        o = UpdateFetchOutcome.response true (some env)
        ∧ entries = normalizeVersionInfo env.result.version_info
        ∧ entries.length ≤ env.result.version_info.length
        ∧ ∀ e ∈ entries,
            (∃ kv ∈ env.result.version_info, ∃ raw : RawModuleStatus,
              kv.2 = some raw
              ∧ classifyModule (some raw) = some e
              ∧ (isUpdateRepositoryStatus raw = true
                  ∨ isSystemUpdateStatus raw = true))
            ∧ ((∃ l r c, e = UpdateModuleEntry.repository l r c)
                ∨ (∃ pk, e = UpdateModuleEntry.systemPackages pk)) := by
  intro p refresh o entries h
  match o with
  | UpdateFetchOutcome.transportFailure =>
    exact absurd h
      (by simp [checkForUpdates, updateStatusStage1, updateStatusStage2,
                Except.bind])
  | UpdateFetchOutcome.response false body =>
    exact absurd h
      (by simp [checkForUpdates, updateStatusStage1, updateStatusStage2,
                Except.bind])
  | UpdateFetchOutcome.response true none =>
    exact absurd h (by simp [checkForUpdates, updateStatusStage1, Except.bind])
  | UpdateFetchOutcome.response true (some env) =>
    refine ⟨env, rfl, ?_, ?_, ?_⟩
    · have : (checkForUpdates p refresh
          (UpdateFetchOutcome.response true (some env))).2.2
          = some (normalizeVersionInfo env.result.version_info) := rfl
      rw [this] at h
      exact (Option.some_inj.mp h).symm
    · have : (checkForUpdates p refresh
          (UpdateFetchOutcome.response true (some env))).2.2
          = some (normalizeVersionInfo env.result.version_info) := rfl
      rw [this] at h
      have he : entries = normalizeVersionInfo env.result.version_info :=
        (Option.some_inj.mp h).symm
      rw [he]
      calc (normalizeVersionInfo env.result.version_info).length
          ≤ (env.result.version_info.map fun kv => classifyModule kv.2).length :=
            List.length_filterMap_le _ _
        _ = env.result.version_info.length := List.length_map _ _
    · have : (checkForUpdates p refresh
          (UpdateFetchOutcome.response true (some env))).2.2
          = some (normalizeVersionInfo env.result.version_info) := rfl
      rw [this] at h
      have he : entries = normalizeVersionInfo env.result.version_info :=
        (Option.some_inj.mp h).symm
      intro e hmem
      rw [he] at hmem
      have hmem' : some e ∈
          env.result.version_info.map fun kv => classifyModule kv.2 := by
        rcases List.mem_filterMap.mp hmem with ⟨oe, hoe, hid⟩
        cases hid
        exact hoe
      rcases List.mem_map.mp hmem' with ⟨kv, hkv, hcl⟩
      match hv : kv.2 with
      | none => rw [hv] at hcl; exact absurd hcl (by simp [classifyModule])
      | some (RawModuleStatus.repo v rv cb) =>
        rw [hv] at hcl
        have he2 : e = UpdateModuleEntry.repository v rv cb.length := by
          have : classifyModule (some (RawModuleStatus.repo v rv cb))
              = some (UpdateModuleEntry.repository v rv cb.length) := rfl
          rw [this] at hcl
          exact (Option.some_inj.mp hcl).symm
        exact ⟨⟨kv, hkv, RawModuleStatus.repo v rv cb, hv, hcl, Or.inl rfl⟩,
               Or.inl ⟨v, rv, cb.length, he2⟩⟩
      | some (RawModuleStatus.system pk) =>
        rw [hv] at hcl
        have he2 : e = UpdateModuleEntry.systemPackages pk := by
          have : classifyModule (some (RawModuleStatus.system pk))
              = some (UpdateModuleEntry.systemPackages pk) := rfl
          rw [this] at hcl
          exact (Option.some_inj.mp hcl).symm
        exact ⟨⟨kv, hkv, RawModuleStatus.system pk, hv, hcl, Or.inr rfl⟩,
               Or.inr ⟨pk, he2⟩⟩
      | some (RawModuleStatus.boolean b) =>
        rw [hv] at hcl
        exact absurd hcl (by simp [classifyModule, isUpdateRepositoryStatus,
                                   isSystemUpdateStatus])

/-- C3 witness: the invariant instantiated on the spec's scenario payload. -/
theorem checkForUpdates_result_invariant_witness :
    ∃ env : APIResult MachineUpdateStatusAPIResponse,
      UpdateFetchOutcome.response true (some demoEnv)
          = UpdateFetchOutcome.response true (some env)
      ∧ [UpdateModuleEntry.repository "v1" "v2" 3,
         UpdateModuleEntry.systemPackages ["a", "b"]]
          = normalizeVersionInfo env.result.version_info
      ∧ [UpdateModuleEntry.repository "v1" "v2" 3,
         UpdateModuleEntry.systemPackages ["a", "b"]].length
          ≤ env.result.version_info.length
      ∧ ∀ e ∈ [UpdateModuleEntry.repository "v1" "v2" 3,
               UpdateModuleEntry.systemPackages ["a", "b"]],
          (∃ kv ∈ env.result.version_info, ∃ raw : RawModuleStatus,
            kv.2 = some raw
            ∧ classifyModule (some raw) = some e
            ∧ (isUpdateRepositoryStatus raw = true
                ∨ isSystemUpdateStatus raw = true))
          ∧ ((∃ l r c, e = UpdateModuleEntry.repository l r c)
              ∨ (∃ pk, e = UpdateModuleEntry.systemPackages pk)) :=
  checkForUpdates_result_invariant (MoonrakerRemotePrinter.make "http://x" none)
    none (UpdateFetchOutcome.response true (some demoEnv))
    [UpdateModuleEntry.repository "v1" "v2" 3,
     UpdateModuleEntry.systemPackages ["a", "b"]] rfl

/-- C4: `checkForUpdates` yields `null` exactly on transport failure, a
non-successful response, or a body that fails to parse; on a successful,
parsed response it yields the normalized sequence — in particular the empty
sequence, not `null`, for an empty `version_info` mapping. -/
theorem checkForUpdates_null_iff :
    ∀ (p : MoonrakerRemotePrinter) (refresh : Option Bool)
      (o : UpdateFetchOutcome),
      ((checkForUpdates p refresh o).2.2 = none ↔
        (o = UpdateFetchOutcome.transportFailure
          ∨ (∃ body, o = UpdateFetchOutcome.response false body)
          ∨ o = UpdateFetchOutcome.response true none))
      ∧ (∀ env, (checkForUpdates p refresh
            (UpdateFetchOutcome.response true (some env))).2.2
          = some (normalizeVersionInfo env.result.version_info))
      ∧ (∀ env : APIResult MachineUpdateStatusAPIResponse,
          env.result.version_info = [] →
          (checkForUpdates p refresh
            (UpdateFetchOutcome.response true (some env))).2.2 = some []) := by
  intro p refresh o
  refine ⟨⟨?_, ?_⟩, fun env => rfl, ?_⟩
  · intro h
    match o with
    | UpdateFetchOutcome.transportFailure => exact Or.inl rfl
    | UpdateFetchOutcome.response false body =>
      exact Or.inr (Or.inl ⟨body, rfl⟩)
    | UpdateFetchOutcome.response true none => exact Or.inr (Or.inr rfl)
    | UpdateFetchOutcome.response true (some env) =>
      exact absurd h
        (by simp [checkForUpdates, updateStatusStage1, updateStatusStage2,
                  Except.bind])
  · intro h
    rcases h with h | ⟨body, h⟩ | h <;> subst h <;> rfl
  · intro env henv
    have hr : (checkForUpdates p refresh
        (UpdateFetchOutcome.response true (some env))).2.2
        = some (normalizeVersionInfo env.result.version_info) := rfl
    rw [hr, henv]
    rfl

/-- C4 witness: an empty mapping produces the empty sequence, not null. -/
theorem checkForUpdates_null_iff_witness :
    (checkForUpdates (MoonrakerRemotePrinter.make "http://x" none) none
      (UpdateFetchOutcome.response true (some ⟨⟨[]⟩⟩))).2.2 = some [] :=
  (checkForUpdates_null_iff (MoonrakerRemotePrinter.make "http://x" none) none
      (UpdateFetchOutcome.response true (some ⟨⟨[]⟩⟩))).2.2 ⟨⟨[]⟩⟩ rfl

/-- C5: `testConnection` issues a GET on the REST base URL inside `try/catch`
(so nothing propagates to the caller), and returns `true` exactly when the
response arrived with `ok` set; a non-ok response and a transport failure both
give `false`. -/
theorem testConnection_spec :
    ∀ (p : MoonrakerRemotePrinter) (o : FetchOutcome),
      (testConnectionRequest p).method = "GET"
      ∧ (testConnectionRequest p).url = buildConnectionURL p false
      ∧ (testConnectionRequest p).rejectionHandled = true
      ∧ ((testConnection p o).2 = true ↔ o = FetchOutcome.response true) := by
  intro p o
  refine ⟨rfl, rfl, rfl, ?_⟩
  match o with
  | FetchOutcome.transportFailure => simp [testConnection]
  | FetchOutcome.response true => simp [testConnection]
  | FetchOutcome.response false => simp [testConnection]

/-- C5 witness: `testConnection` on a 2xx response and on a transport
failure. -/
theorem testConnection_spec_witness :
    (testConnection (MoonrakerRemotePrinter.make "http://x" none)
        (FetchOutcome.response true)).2 = true :=
  (testConnection_spec (MoonrakerRemotePrinter.make "http://x" none)
      (FetchOutcome.response true)).2.2.2.mpr rfl

/-- C6: classification projects a repository-shaped raw value to its local
version, remote version, and the count of `commits_behind`; projects a
system-package-shaped value to its package list; drops boolean-shaped and
undefined values; and on the spec's klipper/moonraker/system scenario yields
the two entries in key order with the boolean entry dropped. -/
theorem classifyModule_spec :
    (∀ (version remote_version : String) (commits_behind : List Nat),
        classifyModule
            (some (RawModuleStatus.repo version remote_version commits_behind))
          = some (UpdateModuleEntry.repository version remote_version
              commits_behind.length))
    ∧ (∀ package_list : List String,
        classifyModule (some (RawModuleStatus.system package_list))
          = some (UpdateModuleEntry.systemPackages package_list))
    ∧ (∀ b : Bool, classifyModule (some (RawModuleStatus.boolean b)) = none)
    ∧ classifyModule none = none
    ∧ normalizeVersionInfo demoVersionInfo
        = [UpdateModuleEntry.repository "v1" "v2" 3,
           UpdateModuleEntry.systemPackages ["a", "b"]] :=
  ⟨fun _ _ _ => rfl, fun _ => rfl, fun _ => rfl, rfl, rfl⟩

/-- C7 counterexample: none of the three control commands attaches a rejection
handler to the promise it discards, so a rejected request is an unhandled
promise rejection — contradicting the claim that no unhandled rejection can
occur. -/
theorem controlCommands_no_handler :
    ((emergencyStop (MoonrakerRemotePrinter.make "http://x" none)).2.rejectionHandled
        = false)
    ∧ ((restart (MoonrakerRemotePrinter.make "http://x" none)).2.rejectionHandled
        = false)
    ∧ ((firmwareRestart (MoonrakerRemotePrinter.make "http://x" none)).2.rejectionHandled
        = false) :=
  ⟨rfl, rfl, rfl⟩

/-- C7 (amended): each control command issues a POST to its fixed path
appended to the REST base URL and returns no value; the discarded promise
carries no rejection handler, so nothing is surfaced to the caller but a
rejected request is left unhandled at the runtime level. -/
theorem controlCommands_spec :
    ∀ p : MoonrakerRemotePrinter,
      (emergencyStop p).1 = p
      ∧ (emergencyStop p).2.method = "POST"
      ∧ (emergencyStop p).2.url
          = buildConnectionURL p false ++ "/printer/emergency_stop"
      ∧ (emergencyStop p).2.rejectionHandled = false
      ∧ (restart p).1 = p
      ∧ (restart p).2.method = "POST"
      ∧ (restart p).2.url = buildConnectionURL p false ++ "/printer/restart"
      ∧ (restart p).2.rejectionHandled = false
      ∧ (firmwareRestart p).1 = p
      ∧ (firmwareRestart p).2.method = "POST"
      ∧ (firmwareRestart p).2.url
          = buildConnectionURL p false ++ "/printer/firmware_restart"
      ∧ (firmwareRestart p).2.rejectionHandled = false :=
  fun _ => ⟨rfl, rfl, rfl, rfl, rfl, rfl, rfl, rfl, rfl, rfl, rfl, rfl⟩

/-- C8: `openSocketConnection` opens a socket on the websocket URL with
`/websocket` appended, stores it as the adapter's current session regardless
of any previously stored one, returns exactly that handle, and performs no
close: its only socket effect is the single open. -/
theorem openSocketConnection_spec :
    ∀ p : MoonrakerRemotePrinter,
      (openSocketConnection p).2.1.url
          = buildConnectionURL p true ++ "/websocket"
      ∧ (openSocketConnection p).1
          = { p with socket := some (openSocketConnection p).2.1 }
      ∧ (openSocketConnection p).2.2
          = [SocketEffect.opened (openSocketConnection p).2.1.url] :=
  fun _ => ⟨rfl, rfl, rfl⟩

/-- C9: the association declares restrict-on-delete and cascade-on-update,
under which deleting a material referenced by some usage row is rejected with
the state unchanged, deleting an unreferenced material removes exactly its
row, and updating a material's identifier rewrites the foreign key of every
referencing usage row. -/
theorem materialUsage_referential_constraint :
    materialUsageAssociation.onDelete = "RESTRICT"
    ∧ materialUsageAssociation.onUpdate = "CASCADE"
    ∧ (∀ (st : DBState) (id : Nat),
        st.usages.any (fun u => u.materialId == id) = true →
        deleteMaterial materialUsageAssociation st id = (false, st))
    ∧ (∀ (st : DBState) (id : Nat),
        st.usages.any (fun u => u.materialId == id) = false →
        deleteMaterial materialUsageAssociation st id
          = (true, { st with
              materials := st.materials.filter fun m => m.materialId != id }))
    ∧ (∀ (st : DBState) (oldId newId : Nat),
        (updateMaterialId materialUsageAssociation st oldId newId).usages
          = st.usages.map fun u =>
              if u.materialId == oldId then { u with materialId := newId }
              else u) := by
  refine ⟨rfl, rfl, ?_, ?_, ?_⟩
  · intro st id h
    simp [deleteMaterial, materialUsageAssociation, h]
  · intro st id h
    simp [deleteMaterial, materialUsageAssociation, h]
  · intro st oldId newId
    simp [updateMaterialId, materialUsageAssociation]

/-- C9 witness: a one-material, one-usage database: the referenced delete is
rejected with the state unchanged, and an identifier update cascades to the
usage row. -/
theorem materialUsage_referential_constraint_witness :
    deleteMaterial materialUsageAssociation
        ⟨[⟨5⟩], [⟨1, 5, 0⟩]⟩ 5
      = (false, ⟨[⟨5⟩], [⟨1, 5, 0⟩]⟩)
    ∧ (updateMaterialId materialUsageAssociation
        ⟨[⟨5⟩], [⟨1, 5, 0⟩]⟩ 5 7).usages
      = [(⟨1, 5, 0⟩ : MaterialUsage)].map fun u =>
          if u.materialId == 5 then { u with materialId := 7 } else u :=
  ⟨materialUsage_referential_constraint.2.2.1 ⟨[⟨5⟩], [⟨1, 5, 0⟩]⟩ 5 rfl,
   materialUsage_referential_constraint.2.2.2.2 ⟨[⟨5⟩], [⟨1, 5, 0⟩]⟩ 5 7⟩

/-- C10: the five network operations leave every adapter field unchanged, and
`openSocketConnection` changes only the `socket` field, setting it to exactly
the handle it returns. -/
theorem adapter_frame_conditions :
    ∀ (p : MoonrakerRemotePrinter) (o : FetchOutcome) (refresh : Option Bool)
      (uo : UpdateFetchOutcome),
      (testConnection p o).1 = p
      ∧ (checkForUpdates p refresh uo).1 = p
      ∧ (emergencyStop p).1 = p
      ∧ (restart p).1 = p
      ∧ (firmwareRestart p).1 = p
      ∧ (openSocketConnection p).1.connectionType = p.connectionType
      ∧ (openSocketConnection p).1.connectionAddress = p.connectionAddress
      ∧ (openSocketConnection p).1.connectionAPIKey = p.connectionAPIKey
      ∧ (openSocketConnection p).1.socket = some (openSocketConnection p).2.1 := by
  intro p o refresh uo
  refine ⟨?_, rfl, rfl, rfl, rfl, rfl, rfl, rfl, rfl⟩
  match o with
  | FetchOutcome.transportFailure => rfl
  | FetchOutcome.response true => rfl
  | FetchOutcome.response false => rfl
